import Mathlib

/-!
# A verification of the `jobtrailor` workflow (`src/app.py`)

The program wires five LLM-calling step functions into a small LangGraph
state machine: research the job posting, build a candidate profile, tailor
the résumé, validate it (with a bounded retry back-edge), and prepare
interview materials, pausing before the final step for human approval.

This development shallowly embeds the workflow:

* `JobApplicationState` mirrors the `TypedDict` of the same name; every
  field is an `Option` because at runtime the LangGraph state is a dict
  whose keys appear only once written (the initial invoke sets just four
  of them).  JSON values produced by `json.loads` are kept abstract as a
  type parameter `J`, with the `{}` default as a distinguished element.
* Each node function (`research_job`, `build_profile`, `tailor_resume`,
  `validate_resume`, `prepare_interview`) returns a `StateUpdate` — the
  partial dict the Python function returns — which `applyUpdate` merges
  into the state, exactly as the graph runtime does.  LLM responses are
  an oracle `Nat → String`, indexed by the call number.
* `route` is the conditional-edge lambda of `get_app`; `runLoop` and
  `runUntilInterrupt` execute the compiled graph up to the
  `interrupt_before=["prepare_interview"]` pause, and `graph` records the
  builder calls themselves.
-/

/-- The `JobApplicationState` TypedDict of `app.py`.  `J` abstracts the
values returned by `json.loads`.  Fields are `Option`s: `none` models a
key that is absent from the state dict. -/
structure JobApplicationState (J : Type) where
  job_posting_url : Option String
  github_url : Option String
  resume_text : Option String
  personal_writeup : Option String
  job_requirements : Option J
  candidate_profile : Option J
  tailored_resume : Option String
  interview_materials : Option String
  approved : Option Bool
  retries : Option Int
deriving Repr, DecidableEq

/-- The partial dict a node returns: `none` means the key is not in the
returned dict, `some v` means the node writes `v` into that key. -/
structure StateUpdate (J : Type) where
  job_posting_url : Option String := none
  github_url : Option String := none
  resume_text : Option String := none
  personal_writeup : Option String := none
  job_requirements : Option J := none
  candidate_profile : Option J := none
  tailored_resume : Option String := none
  interview_materials : Option String := none
  approved : Option Bool := none
  retries : Option Int := none
deriving Repr, DecidableEq

/-- Merge one key of a returned dict into the state: a returned value
overwrites, an absent key leaves the old value. -/
def mergeField {α : Type} (u : Option α) (old : Option α) : Option α :=
  match u with
  | some v => some v
  | none => old

/-- Merge the dict a node returns into the graph state, key by key, as
the LangGraph runtime does with the default (overwrite) reducer. -/
def applyUpdate {J : Type} (s : JobApplicationState J) (u : StateUpdate J) :
    JobApplicationState J where
  job_posting_url := mergeField u.job_posting_url s.job_posting_url
  github_url := mergeField u.github_url s.github_url
  resume_text := mergeField u.resume_text s.resume_text
  personal_writeup := mergeField u.personal_writeup s.personal_writeup
  job_requirements := mergeField u.job_requirements s.job_requirements
  candidate_profile := mergeField u.candidate_profile s.candidate_profile
  tailored_resume := mergeField u.tailored_resume s.tailored_resume
  interview_materials := mergeField u.interview_materials s.interview_materials
  approved := mergeField u.approved s.approved
  retries := mergeField u.retries s.retries

/-- The ASCII whitespace characters Python's `str.strip` removes. -/
def pyIsSpace (c : Char) : Bool :=
  c = ' ' || c = '\t' || c = '\n' || c = '\r' || c = '\x0b' || c = '\x0c'

/-- Python `str.strip()`: drop whitespace from both ends. -/
def pyStrip (s : String) : String :=
  ⟨((s.data.dropWhile pyIsSpace).reverse.dropWhile pyIsSpace).reverse⟩

/-- Scanner for Python `str.replace`: at each position either the
pattern matches (emit the replacement, then skip the rest of the match
via the counter) or the character is kept; matches are non-overlapping,
left to right. -/
def replaceGo (pat rep : List Char) : List Char → Nat → List Char
  | [], _ => []
  | _c :: cs, k + 1 => replaceGo pat rep cs k
  | c :: cs, 0 =>
      if pat.isPrefixOf (c :: cs) && decide (pat ≠ []) then
        rep ++ replaceGo pat rep cs (pat.length - 1)
      else
        c :: replaceGo pat rep cs 0

/-- Python `str.replace(pat, rep)` for a non-empty pattern. -/
def pyReplace (s pat rep : String) : String :=
  ⟨replaceGo pat.data rep.data s.data 0⟩

/-- Python `str.upper()` (the responses at issue are ASCII). -/
def pyUpper (s : String) : String :=
  ⟨s.data.map Char.toUpper⟩

/-- `"YES" in response` — Python substring membership. -/
def containsSubstr (s pat : String) : Bool :=
  decide (pat.toList <:+: s.toList)

/-- `parse_json_safe` of `app.py`: strip, drop the markdown fences, then
`json.loads` inside a bare `try`, returning `default` on any failure.
`loads` abstracts `json.loads`; `Except.error` models a raised exception. -/
def parse_json_safe {J : Type} (loads : String → Except String J)
    (text : String) (default : J) : J :=
  let text := pyReplace (pyReplace (pyStrip text) "```json" "") "```" ""
  match loads text with
  | Except.ok v => v
  | Except.error _ => default

/-- `research_job` of `app.py`: parse the LLM response as JSON (empty
dict `emptyDict` as default) and reset the retry counter to 0. -/
def research_job {J : Type} (loads : String → Except String J) (emptyDict : J)
    (resp : String) (_s : JobApplicationState J) : StateUpdate J :=
  { job_requirements := some (parse_json_safe loads resp emptyDict)
    retries := some 0 }

/-- `build_profile` of `app.py`: parse the LLM response as the candidate
profile. -/
def build_profile {J : Type} (loads : String → Except String J) (emptyDict : J)
    (resp : String) (_s : JobApplicationState J) : StateUpdate J :=
  { candidate_profile := some (parse_json_safe loads resp emptyDict) }

/-- `tailor_resume` of `app.py`: store the raw LLM response as the
tailored résumé. -/
def tailor_resume {J : Type} (resp : String) (_s : JobApplicationState J) :
    StateUpdate J :=
  { tailored_resume := some resp }

/-- `validate_resume` of `app.py`: approve iff the stripped, uppercased
LLM response contains `"YES"`, and bump `retries` by one
(`state.get("retries", 0) + 1`). -/
def validate_resume {J : Type} (resp : String) (s : JobApplicationState J) :
    StateUpdate J :=
  let response := pyStrip resp
  let is_approved := containsSubstr (pyUpper response) "YES"
  { approved := some is_approved
    retries := some (s.retries.getD 0 + 1) }

/-- `prepare_interview` of `app.py`: store the raw LLM response as the
interview materials. -/
def prepare_interview {J : Type} (resp : String) (_s : JobApplicationState J) :
    StateUpdate J :=
  { interview_materials := some resp }

/-- The two labels the conditional-edge lambda can return. -/
inductive Route where
  | approved
  | retry
deriving Repr, DecidableEq

/-- The conditional-edge lambda of `get_app`:
`"approved" if x["approved"] or x["retries"] > 2 else "retry"`.
Reading a key absent from the dict raises `KeyError`, modelled as `none`. -/
def route {J : Type} (s : JobApplicationState J) : Option Route :=
  match s.approved, s.retries with
  | some a, some r => some (if a || r > 2 then Route.approved else Route.retry)
  | _, _ => none

/-- One pass of the back-edge cycle: run `tailor_resume` (LLM call `i`)
then `validate_resume` (LLM call `i+1`), merging each returned dict. -/
def stepTV {J : Type} (oracle : Nat → String) (i : Nat)
    (s : JobApplicationState J) : JobApplicationState J :=
  let s1 := applyUpdate s (tailor_resume (oracle i) s)
  applyUpdate s1 (validate_resume (oracle (i + 1)) s1)

/-- Retries after one tailor/validate pass: `state.get("retries", 0) + 1`. -/
theorem stepTV_retries {J : Type} (oracle : Nat → String) (i : Nat)
    (s : JobApplicationState J) :
    (stepTV oracle i s).retries = some (s.retries.getD 0 + 1) := rfl

/-- Approval after one pass is decided by the validator response alone. -/
theorem stepTV_approved {J : Type} (oracle : Nat → String) (i : Nat)
    (s : JobApplicationState J) :
    (stepTV oracle i s).approved =
      some (containsSubstr ((pyUpper (pyStrip (oracle (i + 1))))) "YES") := rfl

/-- One pass stores the tailor response as the tailored résumé. -/
theorem stepTV_tailored {J : Type} (oracle : Nat → String) (i : Nat)
    (s : JobApplicationState J) :
    (stepTV oracle i s).tailored_resume = some (oracle i) := rfl

/-- One pass leaves `interview_materials` untouched. -/
theorem stepTV_interview {J : Type} (oracle : Nat → String) (i : Nat)
    (s : JobApplicationState J) :
    (stepTV oracle i s).interview_materials = s.interview_materials := rfl

/-- The conditional edge evaluated right after a tailor/validate pass. -/
theorem route_stepTV {J : Type} (oracle : Nat → String) (i : Nat)
    (s : JobApplicationState J) :
    route (stepTV oracle i s) =
      some (if containsSubstr ((pyUpper (pyStrip (oracle (i + 1))))) "YES"
               || s.retries.getD 0 + 1 > 2
            then Route.approved else Route.retry) := rfl

/-- Taking the back-edge forces the retry counter to be at most 2. -/
theorem route_retry_retries {J : Type} (s : JobApplicationState J) (r : Int)
    (hr : s.retries = some r) (h : route s = some Route.retry) : r ≤ 2 := by
  by_contra hgt
  push_neg at hgt
  cases ha : s.approved with
  | none => simp [route, ha, hr] at h
  | some a =>
      have : route s = some Route.approved := by
        simp [route, ha, hr, hgt]
      rw [this] at h
      exact Route.noConfusion (Option.some.inj h)

/-- The cycle of the compiled graph: run `tailor_resume` then
`validate_resume`, then follow the conditional edge; the back-edge
re-enters the cycle, anything else leaves it (the graph then proceeds to
`prepare_interview`, which is behind the interrupt).  Returns the state at
the exit of the loop, the next LLM call index, and the list of node names
executed.  Lean accepts this as total: the retry counter strictly
increases and the back-edge requires it to stay at most 2. -/
def runLoop {J : Type} (oracle : Nat → String) (i : Nat)
    (s : JobApplicationState J) : JobApplicationState J × Nat × List String :=
  if h : route (stepTV oracle i s) = some Route.retry then
    ((runLoop oracle (i + 2) (stepTV oracle i s)).1,
     (runLoop oracle (i + 2) (stepTV oracle i s)).2.1,
     "tailor_resume" :: "validate_resume" ::
       (runLoop oracle (i + 2) (stepTV oracle i s)).2.2)
  else
    (stepTV oracle i s, i + 2, ["tailor_resume", "validate_resume"])
termination_by (3 - s.retries.getD 0).toNat
decreasing_by
  all_goals
    have h1 := stepTV_retries oracle i s
    have h2 := route_retry_retries _ _ h1 h
    simp only [h1, Option.getD_some]
    omega

/-- Unfolding `runLoop` when the back-edge is taken. -/
theorem runLoop_retry {J : Type} (oracle : Nat → String) (i : Nat)
    (s : JobApplicationState J)
    (h : route (stepTV oracle i s) = some Route.retry) :
    runLoop oracle i s =
      ((runLoop oracle (i + 2) (stepTV oracle i s)).1,
       (runLoop oracle (i + 2) (stepTV oracle i s)).2.1,
       "tailor_resume" :: "validate_resume" ::
         (runLoop oracle (i + 2) (stepTV oracle i s)).2.2) := by
  conv_lhs => unfold runLoop
  rw [dif_pos h]

/-- Unfolding `runLoop` when the edge leads forward. -/
theorem runLoop_exit {J : Type} (oracle : Nat → String) (i : Nat)
    (s : JobApplicationState J)
    (h : ¬ route (stepTV oracle i s) = some Route.retry) :
    runLoop oracle i s =
      (stepTV oracle i s, i + 2, ["tailor_resume", "validate_resume"]) := by
  conv_lhs => unfold runLoop
  rw [dif_neg h]

/-- Execution of the compiled graph from an initial invoke up to the
`interrupt_before=["prepare_interview"]` pause: `research_job` (LLM call
0), `build_profile` (LLM call 1), then the tailor/validate cycle.
Returns the checkpointed state, the next LLM call index, and the executed
node names in order. -/
def runUntilInterrupt {J : Type} (loads : String → Except String J)
    (emptyDict : J) (oracle : Nat → String) (input : JobApplicationState J) :
    JobApplicationState J × Nat × List String :=
  let s1 := applyUpdate input (research_job loads emptyDict (oracle 0) input)
  let s2 := applyUpdate s1 (build_profile loads emptyDict (oracle 1) s1)
  let r := runLoop oracle 2 s2
  (r.1, r.2.1, "research_job" :: "build_profile" :: r.2.2)

/-- The `initial_input` dict built by the Streamlit layer: exactly the
four user-supplied keys are present. -/
def initial_input {J : Type} (job_url gh_url res_text writeup : String) :
    JobApplicationState J where
  job_posting_url := some job_url
  github_url := some gh_url
  resume_text := some res_text
  personal_writeup := some writeup
  job_requirements := none
  candidate_profile := none
  tailored_resume := none
  interview_materials := none
  approved := none
  retries := none

/-- The static shape a `StateGraph` builder accumulates: node names,
plain edges (with `"END"` for the `END` sentinel), the entry point, the
single conditional edge with its label-to-target map, and the
interrupt-before list passed to `compile`. -/
structure Graph where
  nodes : List String
  edges : List (String × String)
  entry : String
  conditional_source : String
  conditional_targets : List (String × String)
  interrupt_before : List String
deriving Repr, DecidableEq

/-- The builder calls of `get_app` in `app.py`, recorded verbatim. -/
def get_app : Graph where
  nodes := ["research_job", "build_profile", "tailor_resume",
            "validate_resume", "prepare_interview"]
  edges := [("research_job", "build_profile"),
            ("build_profile", "tailor_resume"),
            ("tailor_resume", "validate_resume"),
            ("prepare_interview", "END")]
  entry := "research_job"
  conditional_source := "validate_resume"
  conditional_targets := [("approved", "prepare_interview"),
                          ("retry", "tailor_resume")]
  interrupt_before := ["prepare_interview"]

/-- Modelled from the spec: the external graph library's `MemorySaver`,
which `app.py` only instantiates — an in-memory checkpoint store keyed by
the thread identifier, with no durability across process restarts.  A
checkpoint holds the suspended state together with the next LLM call
index. -/
def MemorySaver (J : Type) : Type :=
  String → Option (JobApplicationState J × Nat)

/-- Modelled from the spec: `app.invoke(input, thread)` on the compiled
graph.  A fresh input runs the graph from `research_job` to the pause and
checkpoints there under the thread id; input `None` resumes the thread's
persisted checkpoint, executing only the remaining `prepare_interview`
step; `None` with no checkpoint runs nothing.  Returns the output state,
the updated checkpoint store, and the executed node names. -/
def invoke {J : Type} (loads : String → Except String J) (emptyDict : J)
    (oracle : Nat → String) (m : MemorySaver J) (thread_id : String)
    (input : Option (JobApplicationState J)) :
    Option (JobApplicationState J) × MemorySaver J × List String :=
  match input with
  | some init =>
      let r := runUntilInterrupt loads emptyDict oracle init
      (some r.1,
       fun t => if t = thread_id then some (r.1, r.2.1) else m t,
       r.2.2)
  | none =>
      match m thread_id with
      | some (ck, k) =>
          let s := applyUpdate ck (prepare_interview (oracle k) ck)
          (some s,
           fun t => if t = thread_id then some (s, k + 1) else m t,
           ["prepare_interview"])
      | none => (none, m, [])

/-- When the conditional edge does not take the back-edge after a pass,
it takes the `"approved"` label. -/
theorem route_stepTV_not_retry {J : Type} (oracle : Nat → String) (i : Nat)
    (s : JobApplicationState J)
    (h : ¬ route (stepTV oracle i s) = some Route.retry) :
    route (stepTV oracle i s) = some Route.approved := by
  rw [route_stepTV] at h ⊢
  cases hb : (containsSubstr ((pyUpper (pyStrip (oracle (i + 1))))) "YES"
      || decide (s.retries.getD 0 + 1 > 2)) with
  | false => rw [hb] at h; simp at h
  | true => simp

/-- Master invariant of the tailor/validate cycle, by induction on an
upper bound for the remaining iterations.  Starting from a state whose
retry counter is a non-negative `r` with `(3 - r).toNat ≤ n`, the cycle:
runs `tailor_resume` and `validate_resume` equally often, at least once
and at most `max n 1` times; runs no other node; exits with the counter
at `r` plus the number of validations; preserves `interview_materials`;
leaves a tailored résumé present; and exits with the conditional edge
reading `"approved"`. -/
theorem runLoop_master {J : Type} (oracle : Nat → String) :
    ∀ (n i : Nat) (s : JobApplicationState J) (r : Int),
      s.retries = some r → 0 ≤ r → (3 - r).toNat ≤ n →
      ((runLoop oracle i s).2.2.count "tailor_resume" =
         (runLoop oracle i s).2.2.count "validate_resume" ∧
       (runLoop oracle i s).2.2.count "tailor_resume" ≤ max n 1 ∧
       1 ≤ (runLoop oracle i s).2.2.count "tailor_resume" ∧
       (∀ x ∈ (runLoop oracle i s).2.2,
          x = "tailor_resume" ∨ x = "validate_resume") ∧
       (runLoop oracle i s).1.retries =
         some (r + ((runLoop oracle i s).2.2.count "validate_resume" : Int)) ∧
       (runLoop oracle i s).1.interview_materials = s.interview_materials ∧
       (runLoop oracle i s).1.tailored_resume.isSome = true ∧
       route (runLoop oracle i s).1 = some Route.approved) := by
  intro n
  induction n with
  | zero =>
      intro i s r hr hr0 hn
      have hnotretry : ¬ route (stepTV oracle i s) = some Route.retry := by
        rw [route_stepTV, hr]
        have hd : decide (((some r : Option Int)).getD 0 + 1 > 2) = true := by
          simp only [decide_eq_true_eq, Option.getD_some]
          omega
        rw [hd, Bool.or_true]
        simp
      rw [runLoop_exit oracle i s hnotretry]
      dsimp only
      refine ⟨by decide, by decide, by decide, by decide, ?_, ?_, ?_, ?_⟩
      · rw [stepTV_retries, hr]
        have hc1 : (["tailor_resume", "validate_resume"] :
            List String).count "validate_resume" = 1 := by decide
        rw [hc1]
        simp
      · exact stepTV_interview oracle i s
      · rw [stepTV_tailored]; rfl
      · exact route_stepTV_not_retry oracle i s hnotretry
  | succ n ih =>
      intro i s r hr hr0 hn
      by_cases hR : route (stepTV oracle i s) = some Route.retry
      · have hretr : (stepTV oracle i s).retries = some (r + 1) := by
          rw [stepTV_retries, hr]; simp
        have hle : r + 1 ≤ 2 := route_retry_retries _ _ hretr hR
        obtain ⟨hc, hub, hlb, hmem, hret, hint, htail, hroute⟩ :=
          ih (i + 2) (stepTV oracle i s) (r + 1) hretr (by omega) (by omega)
        rw [runLoop_retry oracle i s hR]
        dsimp only
        have hne : ("tailor_resume" : String) ≠ "validate_resume" := by decide
        have hne' : ("validate_resume" : String) ≠ "tailor_resume" := by
          decide
        refine ⟨?_, ?_, ?_, ?_, ?_, ?_, ?_, ?_⟩
        · rw [List.count_cons_self, List.count_cons_of_ne hne,
            List.count_cons_of_ne hne', List.count_cons_self]
          omega
        · rw [List.count_cons_self, List.count_cons_of_ne hne]
          omega
        · rw [List.count_cons_self, List.count_cons_of_ne hne]
          omega
        · intro x hx
          simp only [List.mem_cons] at hx
          rcases hx with rfl | rfl | hx
          · left; rfl
          · right; rfl
          · exact hmem x hx
        · rw [List.count_cons_of_ne hne', List.count_cons_self, hret]
          congr 1
          push_cast
          ring
        · rw [hint]
          exact stepTV_interview oracle i s
        · exact htail
        · exact hroute
      · rw [runLoop_exit oracle i s hR]
        dsimp only
        refine ⟨by decide, ?_, by decide, by decide, ?_, ?_, ?_, ?_⟩
        · have h1 : (["tailor_resume", "validate_resume"] :
              List String).count "tailor_resume" = 1 := by decide
          rw [h1]
          exact le_max_right _ _
        · rw [stepTV_retries, hr]
          have hc1 : (["tailor_resume", "validate_resume"] :
              List String).count "validate_resume" = 1 := by decide
          rw [hc1]
          simp
        · exact stepTV_interview oracle i s
        · rw [stepTV_tailored]; rfl
        · exact route_stepTV_not_retry oracle i s hR

/-- The disequalities between node names used when counting trace
entries. -/
theorem node_name_ne :
    ("tailor_resume" : String) ≠ "research_job" ∧
    ("tailor_resume" : String) ≠ "build_profile" ∧
    ("validate_resume" : String) ≠ "research_job" ∧
    ("validate_resume" : String) ≠ "build_profile" ∧
    ("prepare_interview" : String) ≠ "research_job" ∧
    ("prepare_interview" : String) ≠ "build_profile" ∧
    ("research_job" : String) ≠ "build_profile" ∧
    ("build_profile" : String) ≠ "research_job" := by
  refine ⟨?_, ?_, ?_, ?_, ?_, ?_, ?_, ?_⟩ <;> decide

/-- The master invariant carried over the whole pre-pause run: the trace
is `research_job`, `build_profile`, then 1 to 3 tailor/validate pairs and
nothing else; the checkpointed state's retry counter equals the number of
validations; `interview_materials` is untouched; a tailored résumé is
present; and the conditional edge at the exit reads `"approved"`. -/
theorem runUntilInterrupt_master {J : Type} (loads : String → Except String J)
    (emptyDict : J) (oracle : Nat → String) (input : JobApplicationState J) :
    (runUntilInterrupt loads emptyDict oracle input).2.2.count "tailor_resume" =
      (runUntilInterrupt loads emptyDict oracle input).2.2.count
        "validate_resume" ∧
    (runUntilInterrupt loads emptyDict oracle input).2.2.count
      "tailor_resume" ≤ 3 ∧
    1 ≤ (runUntilInterrupt loads emptyDict oracle input).2.2.count
      "tailor_resume" ∧
    (runUntilInterrupt loads emptyDict oracle input).2.2.count
      "prepare_interview" = 0 ∧
    (runUntilInterrupt loads emptyDict oracle input).2.2.count
      "research_job" = 1 ∧
    (runUntilInterrupt loads emptyDict oracle input).2.2.count
      "build_profile" = 1 ∧
    (runUntilInterrupt loads emptyDict oracle input).1.retries =
      some (((runUntilInterrupt loads emptyDict oracle input).2.2.count
        "validate_resume" : Int)) ∧
    (runUntilInterrupt loads emptyDict oracle input).1.interview_materials =
      input.interview_materials ∧
    (runUntilInterrupt loads emptyDict oracle
      input).1.tailored_resume.isSome = true ∧
    route (runUntilInterrupt loads emptyDict oracle input).1 =
      some Route.approved := by
  obtain ⟨d1, d2, d3, d4, d5, d6, d7, d8⟩ := node_name_ne
  obtain ⟨hc, hub, hlb, hmem, hret, hint, htail, hroute⟩ :=
    runLoop_master oracle 3 2
      (applyUpdate
        (applyUpdate input (research_job loads emptyDict (oracle 0) input))
        (build_profile loads emptyDict (oracle 1)
          (applyUpdate input
            (research_job loads emptyDict (oracle 0) input)))) 0 rfl
      (by decide) (by decide)
  have hrw : runUntilInterrupt loads emptyDict oracle input =
      ((runLoop oracle 2 (applyUpdate
         (applyUpdate input (research_job loads emptyDict (oracle 0) input))
         (build_profile loads emptyDict (oracle 1)
           (applyUpdate input
             (research_job loads emptyDict (oracle 0) input))))).1,
       (runLoop oracle 2 (applyUpdate
         (applyUpdate input (research_job loads emptyDict (oracle 0) input))
         (build_profile loads emptyDict (oracle 1)
           (applyUpdate input
             (research_job loads emptyDict (oracle 0) input))))).2.1,
       "research_job" :: "build_profile" ::
         (runLoop oracle 2 (applyUpdate
           (applyUpdate input (research_job loads emptyDict (oracle 0) input))
           (build_profile loads emptyDict (oracle 1)
             (applyUpdate input
               (research_job loads emptyDict (oracle 0) input))))).2.2) := rfl
  rw [hrw]
  dsimp only
  refine ⟨?_, ?_, ?_, ?_, ?_, ?_, ?_, ?_, ?_, ?_⟩
  · rw [List.count_cons_of_ne d1, List.count_cons_of_ne d2,
      List.count_cons_of_ne d3, List.count_cons_of_ne d4]
    exact hc
  · rw [List.count_cons_of_ne d1, List.count_cons_of_ne d2]
    omega
  · rw [List.count_cons_of_ne d1, List.count_cons_of_ne d2]
    omega
  · rw [List.count_cons_of_ne d5, List.count_cons_of_ne d6]
    apply List.count_eq_zero_of_not_mem
    intro hin
    rcases hmem _ hin with h | h
    · exact absurd h (by decide)
    · exact absurd h (by decide)
  · rw [List.count_cons_self, List.count_cons_of_ne d7]
    have hz : (runLoop oracle 2 (applyUpdate
        (applyUpdate input (research_job loads emptyDict (oracle 0) input))
        (build_profile loads emptyDict (oracle 1)
          (applyUpdate input
            (research_job loads emptyDict (oracle 0)
              input))))).2.2.count "research_job" = 0 := by
      apply List.count_eq_zero_of_not_mem
      intro hin
      rcases hmem _ hin with h | h
      · exact absurd h (by decide)
      · exact absurd h (by decide)
    omega
  · rw [List.count_cons_of_ne d8, List.count_cons_self]
    have hz : (runLoop oracle 2 (applyUpdate
        (applyUpdate input (research_job loads emptyDict (oracle 0) input))
        (build_profile loads emptyDict (oracle 1)
          (applyUpdate input
            (research_job loads emptyDict (oracle 0)
              input))))).2.2.count "build_profile" = 0 := by
      apply List.count_eq_zero_of_not_mem
      intro hin
      rcases hmem _ hin with h | h
      · exact absurd h (by decide)
      · exact absurd h (by decide)
    omega
  · rw [List.count_cons_of_ne d3, List.count_cons_of_ne d4, hret]
    norm_num
  · exact hint
  · exact htail
  · exact hroute

/-- The ten keys of the `JobApplicationState` record, as an enumeration. -/
inductive StateKey where
  | job_posting_url
  | github_url
  | resume_text
  | personal_writeup
  | job_requirements
  | candidate_profile
  | tailored_resume
  | interview_materials
  | approved
  | retries
deriving DecidableEq, Repr

/-- The record's keys, listed in declaration order. -/
def allKeys : List StateKey :=
  [StateKey.job_posting_url, StateKey.github_url, StateKey.resume_text,
   StateKey.personal_writeup, StateKey.job_requirements,
   StateKey.candidate_profile, StateKey.tailored_resume,
   StateKey.interview_materials, StateKey.approved, StateKey.retries]

/-- The keys present in the dict a node returns. -/
def writtenKeys {J : Type} (u : StateUpdate J) : List StateKey :=
  (if u.job_posting_url.isSome then [StateKey.job_posting_url] else []) ++
  (if u.github_url.isSome then [StateKey.github_url] else []) ++
  (if u.resume_text.isSome then [StateKey.resume_text] else []) ++
  (if u.personal_writeup.isSome then [StateKey.personal_writeup] else []) ++
  (if u.job_requirements.isSome then [StateKey.job_requirements] else []) ++
  (if u.candidate_profile.isSome then [StateKey.candidate_profile] else []) ++
  (if u.tailored_resume.isSome then [StateKey.tailored_resume] else []) ++
  (if u.interview_materials.isSome
    then [StateKey.interview_materials] else []) ++
  (if u.approved.isSome then [StateKey.approved] else []) ++
  (if u.retries.isSome then [StateKey.retries] else [])

/-- A concrete `json.loads` stand-in over `Nat` values, used to exercise
the model on closed inputs. -/
def exLoads : String → Except String Nat :=
  fun t => if t = "42" then Except.ok 42 else Except.error "invalid JSON"

/-- A concrete LLM oracle that rejects every validation. -/
def exOracle : Nat → String := fun _ => "NO"

/-- A concrete state sitting at the conditional edge: rejected, with the
retry counter at 2. -/
def exState : JobApplicationState Nat where
  job_posting_url := none
  github_url := none
  resume_text := none
  personal_writeup := none
  job_requirements := none
  candidate_profile := none
  tailored_resume := some "draft"
  interview_materials := none
  approved := some false
  retries := some 2

/-- A concrete suspended checkpoint: a tailored résumé awaiting review. -/
def exCheckpoint : JobApplicationState Nat where
  job_posting_url := some "u"
  github_url := some "g"
  resume_text := some "r"
  personal_writeup := some "w"
  job_requirements := some 42
  candidate_profile := some 42
  tailored_resume := some "tailored text"
  interview_materials := none
  approved := some true
  retries := some 1

/-- A concrete checkpoint store holding `exCheckpoint` for the thread
`"streamlit_user"` and nothing else. -/
def exSaver : MemorySaver Nat :=
  fun t => if t = "streamlit_user" then some (exCheckpoint, 5) else none

/-- C1: the retry loop around the tailor step is bounded at 3 attempts:
in every run `tailor_resume` executes at most 3 times before the
conditional edge reads `"approved"` and the workflow proceeds to
`prepare_interview`; `research_job` initializes the retry counter to 0,
`validate_resume` increments it by 1 on each pass, and the back-edge is
taken only while the counter is at most 2.  The loop always terminates:
`runLoop` is accepted by Lean as a total function. -/
theorem retry_loop_bounded_at_three {J : Type}
    (loads : String → Except String J) (emptyDict : J)
    (oracle : Nat → String) (input : JobApplicationState J) :
    (runUntilInterrupt loads emptyDict oracle input).2.2.count
      "tailor_resume" ≤ 3 ∧
    route (runUntilInterrupt loads emptyDict oracle input).1 =
      some Route.approved ∧
    (∀ resp, (research_job loads emptyDict resp input).retries = some 0) ∧
    (∀ (s : JobApplicationState J) (resp : String),
       (validate_resume resp s).retries = some (s.retries.getD 0 + 1)) ∧
    (∀ (s : JobApplicationState J) (r : Int),
       s.retries = some r → route s = some Route.retry → r ≤ 2) := by
  obtain ⟨_, hub, _, _, _, _, _, _, _, hroute⟩ :=
    runUntilInterrupt_master loads emptyDict oracle input
  exact ⟨hub, hroute, fun _ => rfl, fun _ _ => rfl,
    fun s r hr h => route_retry_retries s r hr h⟩

/-- Witness for the C1 theorem: the hypotheses of its back-edge clause
hold at `exState`, and the bound holds on a concrete rejected run. -/
theorem retry_loop_bounded_at_three_witness :
    exState.retries = some 2 ∧ route exState = some Route.retry ∧
    (2 : Int) ≤ 2 ∧
    (runUntilInterrupt exLoads 0 exOracle
      (initial_input "u" "g" "r" "w")).2.2.count "tailor_resume" ≤ 3 :=
  ⟨rfl, by decide, (retry_loop_bounded_at_three exLoads 0 exOracle
      (initial_input "u" "g" "r" "w")).2.2.2.2 exState 2 rfl (by decide),
   (retry_loop_bounded_at_three exLoads 0 exOracle
      (initial_input "u" "g" "r" "w")).1⟩

/-- C2: the conditional edge after `validate_resume` takes the back-edge
to `tailor_resume` iff the résumé was rejected and the retry counter is
at most 2, and goes forward to `prepare_interview` in every other case. -/
theorem conditional_edge_routing {J : Type} (s : JobApplicationState J)
    (a : Bool) (r : Int) (ha : s.approved = some a)
    (hr : s.retries = some r) :
    (route s = some Route.retry ↔ a = false ∧ r ≤ 2) ∧
    (route s = some Route.approved ↔ a = true ∨ r > 2) := by
  by_cases h2 : r > 2
  · have hval : route s = some Route.approved := by
      simp [route, ha, hr, h2]
    rw [hval]
    constructor
    · simp
      omega
    · simp [h2]
  · cases a with
    | true =>
        have hval : route s = some Route.approved := by
          simp [route, ha, hr]
        rw [hval]
        constructor
        · simp
        · simp
    | false =>
        have hval : route s = some Route.retry := by
          simp [route, ha, hr, h2]
        rw [hval]
        constructor
        · simp
          omega
        · simp
          omega

/-- Witness for the C2 theorem at `exState` (rejected, counter 2). -/
theorem conditional_edge_routing_witness :
    exState.approved = some false ∧ exState.retries = some 2 ∧
    ((route exState = some Route.retry ↔ false = false ∧ (2 : Int) ≤ 2) ∧
     (route exState = some Route.approved ↔ false = true ∨ (2 : Int) > 2)) :=
  ⟨rfl, rfl, conditional_edge_routing exState false 2 rfl rfl⟩

/-- C3: in every run the interrupt fires before `prepare_interview`: the
pre-pause trace never contains it, the checkpointed state still has no
`interview_materials`, and the tailored résumé is already present in the
checkpoint for inspection. -/
theorem pause_before_prepare_interview {J : Type}
    (loads : String → Except String J) (emptyDict : J)
    (oracle : Nat → String) (a b c d : String) :
    (runUntilInterrupt loads emptyDict oracle
      (initial_input a b c d)).2.2.count "prepare_interview" = 0 ∧
    (runUntilInterrupt loads emptyDict oracle
      (initial_input a b c d)).1.interview_materials = none ∧
    (runUntilInterrupt loads emptyDict oracle
      (initial_input a b c d)).1.tailored_resume.isSome = true := by
  obtain ⟨_, _, _, h4, _, _, _, h8, h9, _⟩ :=
    runUntilInterrupt_master loads emptyDict oracle (initial_input a b c d)
  exact ⟨h4, h8.trans rfl, h9⟩

/-- C4: the compiled workflow is a state machine with exactly five step
nodes, one conditional edge (at `validate_resume`), and one interrupt
point, entered at `research_job`; execution visits `research_job` and
`build_profile` first and exactly once each, and leaves the loop towards
`prepare_interview`. -/
theorem graph_five_nodes_one_branch {J : Type}
    (loads : String → Except String J) (emptyDict : J)
    (oracle : Nat → String) (input : JobApplicationState J) :
    get_app.nodes.length = 5 ∧
    get_app.nodes = ["research_job", "build_profile", "tailor_resume",
      "validate_resume", "prepare_interview"] ∧
    get_app.nodes.Nodup ∧
    get_app.entry = "research_job" ∧
    get_app.edges = [("research_job", "build_profile"),
      ("build_profile", "tailor_resume"),
      ("tailor_resume", "validate_resume"),
      ("prepare_interview", "END")] ∧
    get_app.conditional_source = "validate_resume" ∧
    get_app.conditional_targets = [("approved", "prepare_interview"),
      ("retry", "tailor_resume")] ∧
    get_app.interrupt_before = ["prepare_interview"] ∧
    (runUntilInterrupt loads emptyDict oracle input).2.2.take 2 =
      ["research_job", "build_profile"] ∧
    (runUntilInterrupt loads emptyDict oracle input).2.2.count
      "research_job" = 1 ∧
    (runUntilInterrupt loads emptyDict oracle input).2.2.count
      "build_profile" = 1 ∧
    route (runUntilInterrupt loads emptyDict oracle input).1 =
      some Route.approved := by
  obtain ⟨_, _, _, _, h5, h6, _, _, _, h10⟩ :=
    runUntilInterrupt_master loads emptyDict oracle input
  exact ⟨by decide, by decide, by decide, by decide, by decide, by decide,
    by decide, by decide, rfl, h5, h6, h10⟩

/-- C5: checkpoints live in the in-memory store keyed by the thread id:
invoking with input `None` under a thread that holds a suspended
checkpoint resumes it, executing only the remaining `prepare_interview`
step (never `research_job`), and stores the finished state back under the
same thread; an invocation under one thread leaves every other thread's
checkpoint untouched, whether it starts a run or resumes one. -/
theorem resume_from_checkpoint {J : Type} (loads : String → Except String J)
    (emptyDict : J) (oracle : Nat → String) (m : MemorySaver J)
    (tid other : String) (ck : JobApplicationState J) (k : Nat)
    (inp : JobApplicationState J)
    (hck : m tid = some (ck, k)) (hother : other ≠ tid) :
    (invoke loads emptyDict oracle m tid none).1 =
      some (applyUpdate ck (prepare_interview (oracle k) ck)) ∧
    (invoke loads emptyDict oracle m tid none).2.2 = ["prepare_interview"] ∧
    (invoke loads emptyDict oracle m tid none).2.2.count "research_job" = 0 ∧
    (invoke loads emptyDict oracle m tid none).2.1 other = m other ∧
    (invoke loads emptyDict oracle m tid (some inp)).2.1 other = m other ∧
    (invoke loads emptyDict oracle m tid none).2.1 tid =
      some (applyUpdate ck (prepare_interview (oracle k) ck), k + 1) := by
  have h1 : invoke loads emptyDict oracle m tid none =
      (some (applyUpdate ck (prepare_interview (oracle k) ck)),
       fun t => if t = tid
         then some (applyUpdate ck (prepare_interview (oracle k) ck), k + 1)
         else m t,
       ["prepare_interview"]) := by
    simp [invoke, hck]
  have h2 : (invoke loads emptyDict oracle m tid (some inp)).2.1 =
      fun t => if t = tid
        then some ((runUntilInterrupt loads emptyDict oracle inp).1,
          (runUntilInterrupt loads emptyDict oracle inp).2.1)
        else m t := by
    simp [invoke]
  rw [h1]
  refine ⟨rfl, rfl, by dsimp only; decide, ?_, ?_, ?_⟩
  · exact if_neg hother
  · rw [h2]
    exact if_neg hother
  · exact if_pos rfl

/-- Witness for the C5 theorem on the concrete store `exSaver`. -/
theorem resume_from_checkpoint_witness :
    exSaver "streamlit_user" = some (exCheckpoint, 5) ∧
    ("other" : String) ≠ "streamlit_user" ∧
    (invoke exLoads 0 exOracle exSaver "streamlit_user" none).1 =
      some (applyUpdate exCheckpoint
        (prepare_interview (exOracle 5) exCheckpoint)) ∧
    (invoke exLoads 0 exOracle exSaver "streamlit_user" none).2.2 =
      ["prepare_interview"] ∧
    (invoke exLoads 0 exOracle exSaver "streamlit_user" none).2.1 "other" =
      exSaver "other" :=
  ⟨by decide, by decide,
   (resume_from_checkpoint exLoads 0 exOracle exSaver "streamlit_user"
      "other" exCheckpoint 5 (initial_input "u" "g" "r" "w") (by decide)
      (by decide)).1,
   (resume_from_checkpoint exLoads 0 exOracle exSaver "streamlit_user"
      "other" exCheckpoint 5 (initial_input "u" "g" "r" "w") (by decide)
      (by decide)).2.1,
   (resume_from_checkpoint exLoads 0 exOracle exSaver "streamlit_user"
      "other" exCheckpoint 5 (initial_input "u" "g" "r" "w") (by decide)
      (by decide)).2.2.2.1⟩

/-- C6: the validation step is a self-judged yes/no: the approval flag
becomes `true` exactly when the stripped, uppercased validator response
contains `"YES"` (so a plain `"NO"` answer yields `false` and a plain
`"YES"` answer yields `true`), and each invocation bumps the retry
counter by exactly 1. -/
theorem validate_resume_yes_no {J : Type} (resp : String)
    (s : JobApplicationState J) :
    ((applyUpdate s (validate_resume resp s)).approved = some true ↔
      "YES".toList <:+: (pyUpper (pyStrip resp)).toList) ∧
    (applyUpdate s (validate_resume resp s)).approved =
      some (containsSubstr (pyUpper (pyStrip resp)) "YES") ∧
    (applyUpdate s (validate_resume "NO" s)).approved = some false ∧
    (applyUpdate s (validate_resume "YES" s)).approved = some true ∧
    (applyUpdate s (validate_resume resp s)).retries =
      some (s.retries.getD 0 + 1) := by
  refine ⟨?_, rfl, rfl, rfl, rfl⟩
  have h : (applyUpdate s (validate_resume resp s)).approved =
      some (containsSubstr (pyUpper (pyStrip resp)) "YES") := rfl
  rw [h]
  simp [containsSubstr]

/-- C8: `parse_json_safe` is total: it cleans the text (strip, then
remove the markdown fences) and returns the parsed value when `json.loads`
succeeds on the cleaned text, and the supplied default when it raises. -/
theorem parse_json_safe_total {J : Type} (loads : String → Except String J)
    (text : String) (default : J) :
    (∀ v, loads (pyReplace (pyReplace (pyStrip text) "```json" "")
        "```" "") = Except.ok v →
      parse_json_safe loads text default = v) ∧
    (∀ e, loads (pyReplace (pyReplace (pyStrip text) "```json" "")
        "```" "") = Except.error e →
      parse_json_safe loads text default = default) := by
  constructor
  · intro v hv
    simp [parse_json_safe, hv]
  · intro e he
    simp [parse_json_safe, he]

/-- Witness for the C8 theorem: a fenced valid payload parses, an invalid
one falls back to the default. -/
theorem parse_json_safe_total_witness :
    exLoads "42" = Except.ok 42 ∧
    parse_json_safe exLoads "```json42```" 7 = 42 ∧
    exLoads "nope" = Except.error "invalid JSON" ∧
    parse_json_safe exLoads "nope" 7 = 7 :=
  ⟨rfl,
   (parse_json_safe_total exLoads "```json42```" 7).1 42 rfl,
   rfl,
   (parse_json_safe_total exLoads "nope" 7).2 "invalid JSON" rfl⟩

/-- C7: the workflow state is the single ten-field record
`JobApplicationState`, and every node writes only into that record: the
key enumeration has exactly ten distinct members covering the whole
record, and each node's returned dict mentions only those keys (indeed,
the exact designated ones). -/
theorem state_record_has_ten_fields {J : Type}
    (loads : String → Except String J) (emptyDict : J) (resp : String)
    (s : JobApplicationState J) :
    allKeys.length = 10 ∧ allKeys.Nodup ∧ (∀ k : StateKey, k ∈ allKeys) ∧
    writtenKeys (research_job loads emptyDict resp s) =
      [StateKey.job_requirements, StateKey.retries] ∧
    writtenKeys (build_profile loads emptyDict resp s) =
      [StateKey.candidate_profile] ∧
    writtenKeys (tailor_resume resp s) = [StateKey.tailored_resume] ∧
    writtenKeys (validate_resume resp s) =
      [StateKey.approved, StateKey.retries] ∧
    writtenKeys (prepare_interview resp s) =
      [StateKey.interview_materials] := by
  refine ⟨rfl, by decide, ?_, rfl, rfl, rfl, rfl, rfl⟩
  intro k
  cases k <;> decide

/-- C9: each node's returned dict touches only its designated fields;
every other field of the state survives the merge unchanged — in
particular `prepare_interview` leaves the approved tailored résumé
exactly as it was. -/
theorem node_frame_conditions {J : Type} (loads : String → Except String J)
    (emptyDict : J) (resp : String) (s : JobApplicationState J) :
    ((applyUpdate s (research_job loads emptyDict resp s)).job_posting_url =
        s.job_posting_url ∧
     (applyUpdate s (research_job loads emptyDict resp s)).github_url =
        s.github_url ∧
     (applyUpdate s (research_job loads emptyDict resp s)).resume_text =
        s.resume_text ∧
     (applyUpdate s (research_job loads emptyDict resp s)).personal_writeup =
        s.personal_writeup ∧
     (applyUpdate s (research_job loads emptyDict resp s)).candidate_profile =
        s.candidate_profile ∧
     (applyUpdate s (research_job loads emptyDict resp s)).tailored_resume =
        s.tailored_resume ∧
     (applyUpdate s
        (research_job loads emptyDict resp s)).interview_materials =
        s.interview_materials ∧
     (applyUpdate s (research_job loads emptyDict resp s)).approved =
        s.approved) ∧
    ((applyUpdate s (build_profile loads emptyDict resp s)).job_posting_url =
        s.job_posting_url ∧
     (applyUpdate s (build_profile loads emptyDict resp s)).github_url =
        s.github_url ∧
     (applyUpdate s (build_profile loads emptyDict resp s)).resume_text =
        s.resume_text ∧
     (applyUpdate s (build_profile loads emptyDict resp s)).personal_writeup =
        s.personal_writeup ∧
     (applyUpdate s (build_profile loads emptyDict resp s)).job_requirements =
        s.job_requirements ∧
     (applyUpdate s (build_profile loads emptyDict resp s)).tailored_resume =
        s.tailored_resume ∧
     (applyUpdate s
        (build_profile loads emptyDict resp s)).interview_materials =
        s.interview_materials ∧
     (applyUpdate s (build_profile loads emptyDict resp s)).approved =
        s.approved ∧
     (applyUpdate s (build_profile loads emptyDict resp s)).retries =
        s.retries) ∧
    ((applyUpdate s (tailor_resume resp s)).job_posting_url =
        s.job_posting_url ∧
     (applyUpdate s (tailor_resume resp s)).github_url = s.github_url ∧
     (applyUpdate s (tailor_resume resp s)).resume_text = s.resume_text ∧
     (applyUpdate s (tailor_resume resp s)).personal_writeup =
        s.personal_writeup ∧
     (applyUpdate s (tailor_resume resp s)).job_requirements =
        s.job_requirements ∧
     (applyUpdate s (tailor_resume resp s)).candidate_profile =
        s.candidate_profile ∧
     (applyUpdate s (tailor_resume resp s)).interview_materials =
        s.interview_materials ∧
     (applyUpdate s (tailor_resume resp s)).approved = s.approved ∧
     (applyUpdate s (tailor_resume resp s)).retries = s.retries) ∧
    ((applyUpdate s (validate_resume resp s)).job_posting_url =
        s.job_posting_url ∧
     (applyUpdate s (validate_resume resp s)).github_url = s.github_url ∧
     (applyUpdate s (validate_resume resp s)).resume_text = s.resume_text ∧
     (applyUpdate s (validate_resume resp s)).personal_writeup =
        s.personal_writeup ∧
     (applyUpdate s (validate_resume resp s)).job_requirements =
        s.job_requirements ∧
     (applyUpdate s (validate_resume resp s)).candidate_profile =
        s.candidate_profile ∧
     (applyUpdate s (validate_resume resp s)).tailored_resume =
        s.tailored_resume ∧
     (applyUpdate s (validate_resume resp s)).interview_materials =
        s.interview_materials) ∧
    ((applyUpdate s (prepare_interview resp s)).job_posting_url =
        s.job_posting_url ∧
     (applyUpdate s (prepare_interview resp s)).github_url = s.github_url ∧
     (applyUpdate s (prepare_interview resp s)).resume_text =
        s.resume_text ∧
     (applyUpdate s (prepare_interview resp s)).personal_writeup =
        s.personal_writeup ∧
     (applyUpdate s (prepare_interview resp s)).job_requirements =
        s.job_requirements ∧
     (applyUpdate s (prepare_interview resp s)).candidate_profile =
        s.candidate_profile ∧
     (applyUpdate s (prepare_interview resp s)).tailored_resume =
        s.tailored_resume ∧
     (applyUpdate s (prepare_interview resp s)).approved = s.approved ∧
     (applyUpdate s (prepare_interview resp s)).retries = s.retries) := by
  repeat constructor

/-- C10: the retry counter counts completed validations: it is 0 right
after `research_job` and still 0 after `build_profile`; each
tailor/validate pass raises it by exactly one; and at the pause it equals
the total number of `validate_resume` executions in the trace. -/
theorem retries_equal_validation_count {J : Type}
    (loads : String → Except String J) (emptyDict : J)
    (oracle : Nat → String) (input : JobApplicationState J) :
    (applyUpdate input
      (research_job loads emptyDict (oracle 0) input)).retries = some 0 ∧
    (applyUpdate
      (applyUpdate input (research_job loads emptyDict (oracle 0) input))
      (build_profile loads emptyDict (oracle 1)
        (applyUpdate input
          (research_job loads emptyDict (oracle 0) input)))).retries =
      some 0 ∧
    (∀ (i : Nat) (s : JobApplicationState J),
       (stepTV oracle i s).retries = some (s.retries.getD 0 + 1)) ∧
    (runUntilInterrupt loads emptyDict oracle input).1.retries =
      some (((runUntilInterrupt loads emptyDict oracle input).2.2.count
        "validate_resume" : Int)) := by
  obtain ⟨_, _, _, _, _, _, h7, _, _, _⟩ :=
    runUntilInterrupt_master loads emptyDict oracle input
  exact ⟨rfl, rfl, fun i s => rfl, h7⟩
